import Mathlib

/-!
# Verification of the token-prep compositing core

Shallow embedding of the token generator's crop-geometry engine
(`calculateCropArea` in `tokenGenerator.js`), the border renderer
(`borderStyles.js`), and the interaction controller (`app.js`), together
with theorems settling the specified properties.

Modelling conventions:
* JavaScript numbers are modelled as rationals (`ℚ`); all arithmetic the
  properties depend on is exact at this precision.
* `Math.sin` / `Math.cos` and the Euclidean distance `Math.sqrt(dx*dx+dy*dy)`
  are abstracted as oracle functions `ℚ → ℚ` (resp. `ℚ × ℚ → ℚ`), since their
  values are irrational; theorems constrain the oracles only where needed.
* A canvas is an idealised surface `ℚ × ℚ → RGBA` with premultiplied-alpha
  pixels (alpha in `[0,1]`, byte value 255 corresponds to alpha `1`);
  `ctx.arc`+`fill` covers exactly the closed disc, and 8-bit quantisation of
  `getImageData`/`putImageData` is ignored (it never affects the alpha
  channel, which is what the ring-geometry properties are about).
-/

namespace TokenPrep

/-- A point `{x, y}` in source-image pixel coordinates. -/
structure Point where
  x : ℚ
  y : ℚ
  deriving DecidableEq, Repr

/-- The crop rectangle returned by `calculateCropArea`. -/
structure CropRegion where
  x : ℚ
  y : ℚ
  width : ℚ
  height : ℚ
  deriving DecidableEq, Repr

/-- Source-image dimensions (`image.width`, `image.height`). -/
structure ImageDim where
  width : ℚ
  height : ℚ
  deriving DecidableEq, Repr

/-- Face-detection data: bounding box plus optional landmarks
(`eyeDistance`, `noseTip`).  An absent field is `none`; the JavaScript
truthiness test `faceData.eyeDistance && faceData.noseTip` additionally
treats `eyeDistance = 0` as absent. -/
structure FaceData where
  x : ℚ
  y : ℚ
  width : ℚ
  height : ℚ
  eyeDistance : Option ℚ
  noseTip : Option Point
  deriving DecidableEq, Repr

/-- Intermediate result of the branch of `calculateCropArea` that chooses
crop size and centre (before zoom, pan and clamping). -/
structure CropCore where
  cropWidth : ℚ
  cropHeight : ℚ
  centerX : ℚ
  centerY : ℚ
  deriving DecidableEq, Repr

/-- Landmark branch of `calculateCropArea` (tokenGenerator.js): crop sized
from `eyeDistance` (`* 3.2` / `* 4.6`), squared to the larger side, centred
on the nose tip with the nose at 42% of the crop height from the top. -/
def landmarkCore (eyeDistance : ℚ) (noseTip : Point) : CropCore :=
  let cropWidth := eyeDistance * (16/5)
  let cropHeight := eyeDistance * (23/5)
  let cropWidth2 := if cropWidth > cropHeight then cropWidth else cropHeight
  let cropHeight2 := if cropWidth > cropHeight then cropWidth else cropHeight
  let centerX := noseTip.x
  let nosePositionFromTop := cropHeight2 * (21/50)
  let centerY := noseTip.y + nosePositionFromTop - cropHeight2 / 2
  ⟨cropWidth2, cropHeight2, centerX, centerY⟩

/-- Fallback branch of `calculateCropArea` (tokenGenerator.js): face box
expanded by `3.5*h` up, `0.3*h` down and `1.2*w` to each side, squared to
the larger side, centred on the face-box centre with the face top at 40%
of the crop height from the top. -/
def fallbackCore (faceData : FaceData) : CropCore :=
  let faceCenterX := faceData.x + faceData.width / 2
  let faceTop := faceData.y
  let expandUp := faceData.height * (7/2)
  let expandDown := faceData.height * (3/10)
  let expandLeft := faceData.width * (6/5)
  let expandRight := faceData.width * (6/5)
  let desiredHeight := expandUp + faceData.height + expandDown
  let desiredWidth := expandLeft + faceData.width + expandRight
  let cropWidth := if desiredWidth > desiredHeight then desiredWidth else desiredHeight
  let cropHeight := if desiredWidth > desiredHeight then desiredWidth else desiredHeight
  let centerX := faceCenterX
  let facePositionFromTop := cropHeight * (2/5)
  let centerY := faceTop - facePositionFromTop + cropHeight / 2
  ⟨cropWidth, cropHeight, centerX, centerY⟩

/-- Branch selection of `calculateCropArea`: the JavaScript condition
`faceData.eyeDistance && faceData.noseTip` (truthiness: a present but zero
`eyeDistance` falls back to the box method). -/
def cropCore (faceData : FaceData) : CropCore :=
  match faceData.eyeDistance, faceData.noseTip with
  | some d, some nose => if d = 0 then fallbackCore faceData else landmarkCore d nose
  | _, _ => fallbackCore faceData

/-- `if (v < 0) v = 0;` — first clamp step of `calculateCropArea`. -/
def clampLow (v : ℚ) : ℚ :=
  if v < 0 then 0 else v

/-- `if (v + len > bound) v = bound - len;` — second clamp step of
`calculateCropArea`. -/
def clampHigh (v len bound : ℚ) : ℚ :=
  if v + len > bound then bound - len else v

/-- `calculateCropArea(image, faceData, targetSize, zoomAdjustment, cropOffset)`
from tokenGenerator.js: choose crop size/centre (landmark or fallback branch),
divide the size by the zoom, add the pan offset to the centre, derive the
top-left corner, clamp low then high per axis, and take
`min(side, bound - corner)` as the final dimension.  `targetSize` is a
parameter of the source function that its body never reads. -/
def calculateCropArea (image : ImageDim) (faceData : FaceData) (targetSize : ℚ)
    (zoomAdjustment : ℚ) (cropOffset : Point) : CropRegion :=
  let core := cropCore faceData
  let cropWidth := core.cropWidth / zoomAdjustment
  let cropHeight := core.cropHeight / zoomAdjustment
  let centerX := core.centerX + cropOffset.x
  let centerY := core.centerY + cropOffset.y
  let cropX0 := centerX - cropWidth / 2
  let cropY0 := centerY - cropHeight / 2
  let cropX1 := clampLow cropX0
  let cropY1 := clampLow cropY0
  let cropX2 := clampHigh cropX1 cropWidth image.width
  let cropY2 := clampHigh cropY1 cropHeight image.height
  let cropWidth2 := min cropWidth (image.width - cropX2)
  let cropHeight2 := min cropHeight (image.height - cropY2)
  ⟨cropX2, cropY2, cropWidth2, cropHeight2⟩

/-- Validity of a `FaceGeometry` record per the data model: positive box
dimensions and, when present, a positive eye distance. -/
def FaceGeometryValid (f : FaceData) : Prop :=
  0 < f.width ∧ 0 < f.height ∧ ∀ d, f.eyeDistance = some d → 0 < d

instance (f : FaceData) : Decidable (FaceGeometryValid f) :=
  decidable_of_iff (0 < f.width ∧ 0 < f.height ∧
      (f.eyeDistance.map fun d => decide (0 < d)).getD true = true) <| by
    unfold FaceGeometryValid
    rcases f.eyeDistance with _ | d <;> simp

/-! ## Basic facts about the clamp steps -/

theorem clampLow_nonneg (v : ℚ) : 0 ≤ clampLow v := by
  unfold clampLow; split_ifs with h
  · exact le_refl 0
  · linarith

theorem clampHigh_add_le (v len bound : ℚ) :
    clampHigh v len bound + len ≤ bound := by
  unfold clampHigh; split_ifs with h
  · linarith
  · linarith

theorem clampHigh_nonneg (v len bound : ℚ) (hv : 0 ≤ v) (hlb : len ≤ bound) :
    0 ≤ clampHigh v len bound := by
  unfold clampHigh; split_ifs with h
  · linarith
  · exact hv

theorem clampHigh_degenerate (v len bound : ℚ) (hv : 0 ≤ v) (h : bound < len) :
    clampHigh v len bound = bound - len := by
  unfold clampHigh; split_ifs with h2
  · rfl
  · linarith

theorem min_sub_clampHigh (v len bound : ℚ) :
    min len (bound - clampHigh v len bound) = len := by
  refine min_eq_left ?_
  have := clampHigh_add_le v len bound
  linarith

/-- Both branches of `calculateCropArea` force a square: the chosen crop
width and height are always equal. -/
theorem cropCore_square (f : FaceData) :
    (cropCore f).cropWidth = (cropCore f).cropHeight := by
  unfold cropCore landmarkCore fallbackCore
  rcases f.eyeDistance with _ | d <;> rcases f.noseTip with _ | nose <;> simp <;> split <;> simp

/-! ## Projections of `calculateCropArea` -/

theorem calculateCropArea_width (image : ImageDim) (f : FaceData) (ts z : ℚ) (pan : Point) :
    (calculateCropArea image f ts z pan).width = (cropCore f).cropWidth / z := by
  show min ((cropCore f).cropWidth / z) _ = (cropCore f).cropWidth / z
  exact min_sub_clampHigh _ _ _

theorem calculateCropArea_height (image : ImageDim) (f : FaceData) (ts z : ℚ) (pan : Point) :
    (calculateCropArea image f ts z pan).height = (cropCore f).cropHeight / z := by
  show min ((cropCore f).cropHeight / z) _ = (cropCore f).cropHeight / z
  exact min_sub_clampHigh _ _ _

theorem calculateCropArea_x (image : ImageDim) (f : FaceData) (ts z : ℚ) (pan : Point) :
    (calculateCropArea image f ts z pan).x =
      clampHigh (clampLow ((cropCore f).centerX + pan.x - ((cropCore f).cropWidth / z) / 2))
        ((cropCore f).cropWidth / z) image.width := rfl

theorem calculateCropArea_y (image : ImageDim) (f : FaceData) (ts z : ℚ) (pan : Point) :
    (calculateCropArea image f ts z pan).y =
      clampHigh (clampLow ((cropCore f).centerY + pan.y - ((cropCore f).cropHeight / z) / 2))
        ((cropCore f).cropHeight / z) image.height := rfl

/-! ## Claim C1: crop squareness and bounds -/

/-- C1 (amended): for every image with positive dimensions, valid
`FaceGeometry`, zoom in `[0.5, 1.5]` and arbitrary pan, the crop region is
always square (`width = height`, including the degenerate case), and always
satisfies `x + width ≤ imageWidth` and `y + height ≤ imageHeight`;
`0 ≤ x` (resp. `0 ≤ y`) holds whenever the computed side does not exceed
the image width (resp. height), while in the degenerate case the corner is
negative: `x = imageWidth - width` (resp. `y = imageHeight - height`). -/
theorem crop_always_square_and_bounded (image : ImageDim) (f : FaceData) (ts z : ℚ)
    (pan : Point) (hW : 0 < image.width) (hH : 0 < image.height)
    (hf : FaceGeometryValid f) (hz1 : 1/2 ≤ z) (hz2 : z ≤ 3/2) :
    let R := calculateCropArea image f ts z pan
    R.width = R.height ∧
    R.x + R.width ≤ image.width ∧
    R.y + R.height ≤ image.height ∧
    (R.width ≤ image.width → 0 ≤ R.x) ∧
    (R.height ≤ image.height → 0 ≤ R.y) ∧
    (image.width < R.width → R.x = image.width - R.width) ∧
    (image.height < R.height → R.y = image.height - R.height) := by
  intro R
  have hwd := calculateCropArea_width image f ts z pan
  have hht := calculateCropArea_height image f ts z pan
  have hx := calculateCropArea_x image f ts z pan
  have hy := calculateCropArea_y image f ts z pan
  refine ⟨?_, ?_, ?_, ?_, ?_, ?_, ?_⟩
  · rw [show R.width = _ from hwd, show R.height = _ from hht, cropCore_square]
  · rw [show R.x = _ from hx, show R.width = _ from hwd]
    exact clampHigh_add_le _ _ _
  · rw [show R.y = _ from hy, show R.height = _ from hht]
    exact clampHigh_add_le _ _ _
  · intro hle
    rw [show R.width = _ from hwd] at hle
    rw [show R.x = _ from hx]
    exact clampHigh_nonneg _ _ _ (clampLow_nonneg _) hle
  · intro hle
    rw [show R.height = _ from hht] at hle
    rw [show R.y = _ from hy]
    exact clampHigh_nonneg _ _ _ (clampLow_nonneg _) hle
  · intro hgt
    rw [show R.width = _ from hwd] at hgt ⊢
    rw [show R.x = _ from hx]
    exact clampHigh_degenerate _ _ _ (clampLow_nonneg _) hgt
  · intro hgt
    rw [show R.height = _ from hht] at hgt ⊢
    rw [show R.y = _ from hy]
    exact clampHigh_degenerate _ _ _ (clampLow_nonneg _) hgt

/-- C1 counterexample: a valid face box in a 100×100 image whose computed
side (120) exceeds the image, with zoom 1 and no pan, yields a crop with
`x < 0` — refuting the claimed unconditional `0 ≤ x`. -/
theorem crop_bounds_counterexample :
    FaceGeometryValid ⟨40, 30, 20, 25, none, none⟩ ∧
    ((1:ℚ)/2 ≤ 1 ∧ (1:ℚ) ≤ 3/2) ∧
    ¬ (0 ≤ (calculateCropArea ⟨100, 100⟩ ⟨40, 30, 20, 25, none, none⟩ 496 1 ⟨0, 0⟩).x) := by
  refine ⟨⟨by norm_num, by norm_num, fun d h => by cases h⟩, ⟨by norm_num, by norm_num⟩, ?_⟩
  norm_num [calculateCropArea, cropCore, fallbackCore, clampLow, clampHigh]

/-- Witness for C1's amended theorem at a concrete non-degenerate input. -/
theorem crop_always_square_and_bounded_witness :
    (let R := calculateCropArea ⟨1000, 1000⟩ ⟨450, 470, 100, 100, some 50, some ⟨500, 520⟩⟩
        496 1 ⟨0, 0⟩
     R.width = R.height ∧
     R.x + R.width ≤ (1000:ℚ) ∧
     R.y + R.height ≤ (1000:ℚ) ∧
     (R.width ≤ (1000:ℚ) → 0 ≤ R.x) ∧
     (R.height ≤ (1000:ℚ) → 0 ≤ R.y) ∧
     ((1000:ℚ) < R.width → R.x = 1000 - R.width) ∧
     ((1000:ℚ) < R.height → R.y = 1000 - R.height)) :=
  crop_always_square_and_bounded ⟨1000, 1000⟩ ⟨450, 470, 100, 100, some 50, some ⟨500, 520⟩⟩
    496 1 ⟨0, 0⟩ (by norm_num) (by norm_num) (by norm_num [FaceGeometryValid]) (by norm_num) (by norm_num)

/-! ## Claim C2: the fallback round-trip scenario -/

/-- C2 counterexample: for the 1000×1000 image with face box
`{x:400, y:300, width:200, height:250}`, no landmarks, zoom 1, pan 0, the
code does **not** return the claimed whole-image region `{0,0,1000,1000}`. -/
theorem roundtrip_scenario_counterexample :
    calculateCropArea ⟨1000, 1000⟩ ⟨400, 300, 200, 250, none, none⟩ 496 1 ⟨0, 0⟩ ≠
      ⟨0, 0, 1000, 1000⟩ := by
  norm_num [calculateCropArea, cropCore, fallbackCore, landmarkCore, clampLow, clampHigh, FaceGeometryValid]

/-- C2 (amended): the fallback path does compute side `1200` (from
`desiredWidth = 680`, `desiredHeight = 1200`) centred at `(500, 420)`, but
the clamp sequence sets the corner to `0` and then to `1000 - 1200 = -200`
per axis, and the final `min` step is a no-op, so the returned region is
`{x: -200, y: -200, width: 1200, height: 1200}` rather than the whole image. -/
theorem roundtrip_scenario_actual :
    fallbackCore ⟨400, 300, 200, 250, none, none⟩ = ⟨1200, 1200, 500, 420⟩ ∧
    calculateCropArea ⟨1000, 1000⟩ ⟨400, 300, 200, 250, none, none⟩ 496 1 ⟨0, 0⟩ =
      ⟨-200, -200, 1200, 1200⟩ := by
  norm_num [calculateCropArea, cropCore, fallbackCore, landmarkCore, clampLow, clampHigh, FaceGeometryValid]

/-! ## Claim C4: the landmark scenario -/

/-- C4 counterexample: with `eyeDistance = 50`, `noseTip = (500, 520)`,
zoom 1, pan 0 in a 1000×1000 image, the crop's `y` is `386.6`, not the
claimed `385.6` (the claim's arithmetic `520 + 0.42*230 - 115` equals
`501.6`, not `500.6`). -/
theorem landmark_scenario_counterexample :
    (calculateCropArea ⟨1000, 1000⟩ ⟨450, 470, 100, 100, some 50, some ⟨500, 520⟩⟩
        496 1 ⟨0, 0⟩).y ≠ 1928/5 ∧
    (calculateCropArea ⟨1000, 1000⟩ ⟨450, 470, 100, 100, some 50, some ⟨500, 520⟩⟩
        496 1 ⟨0, 0⟩).y = 1933/5 := by
  norm_num [calculateCropArea, cropCore, fallbackCore, landmarkCore, clampLow, clampHigh, FaceGeometryValid]

/-- C4 (amended): the landmark path gives `side = max(50*3.2, 50*4.6) = 230`,
`centerX = 500`, `centerY = 520 + 0.42*230 - 115 = 501.6`, and the crop
region is exactly `{x: 385, y: 386.6, width: 230, height: 230}`, fully
inside the image with no clamping. -/
theorem landmark_scenario_actual :
    landmarkCore 50 ⟨500, 520⟩ = ⟨230, 230, 500, 2508/5⟩ ∧
    calculateCropArea ⟨1000, 1000⟩ ⟨450, 470, 100, 100, some 50, some ⟨500, 520⟩⟩
        496 1 ⟨0, 0⟩ = ⟨385, 1933/5, 230, 230⟩ := by
  norm_num [calculateCropArea, cropCore, fallbackCore, landmarkCore, clampLow, clampHigh, FaceGeometryValid]

/-! ## Claim C9: the crop is independent of `targetSize` -/

/-- C9: `calculateCropArea` never reads its `targetSize` argument, so the
crop region is identical for any two target sizes — in particular for the
thin-border (`512 - 2*8`) and thick-border (`512 - 2*16`) settings. -/
theorem crop_independent_of_targetSize (image : ImageDim) (f : FaceData) (z : ℚ)
    (pan : Point) (ts₁ ts₂ : ℚ) :
    calculateCropArea image f ts₁ z pan = calculateCropArea image f ts₂ z pan ∧
    calculateCropArea image f (512 - 2*8) z pan =
      calculateCropArea image f (512 - 2*16) z pan :=
  ⟨rfl, rfl⟩

/-! ## Interaction controller (app.js)

Mutable module-level state of `app.js` relevant to drag and zoom, and the
event handlers of `setupDragFunctionality` / `handleZoomChange` as state
transformers.  The source image and face data are fixed per session and
passed as explicit parameters; DOM guards (`if (!currentImage) return`) are
modelled as always passing since the modelled session has an image loaded. -/

/-- The mutable interaction state of `app.js`: current pan offset, drag
bookkeeping, last crop region (for drag scaling), zoom slider value and
zoom factor, and the border-thickness option (8 = thin, 16 = thick). -/
structure AppState where
  currentZoomAdjustment : ℚ
  currentCropOffset : Point
  isDragging : Bool
  dragStart : Point
  dragStartOffset : Point
  lastCropData : CropRegion
  zoomSliderValue : ℚ
  borderWidthOption : ℚ
  deriving DecidableEq, Repr

/-- `regenerateToken` (app.js): re-invokes `createToken`, which computes the
crop with `targetSize = tokenSize - borderWidth*2` (tokenGenerator.js uses
`tokenSize = 512`, `borderWidth = 8`), and stores the crop data in
`lastCropData` for drag calculations. -/
def regenerateToken (image : ImageDim) (faceData : FaceData) (s : AppState) : AppState :=
  { s with lastCropData :=
      calculateCropArea image faceData (512 - 8 * 2) s.currentZoomAdjustment s.currentCropOffset }

/-- `mousedown` handler (app.js): start dragging, record the pointer
position and the current crop offset as the drag origin. -/
def onMouseDown (pos : Point) (s : AppState) : AppState :=
  { s with isDragging := true, dragStart := pos, dragStartOffset := s.currentCropOffset }

/-- `mousemove` handler (app.js): while dragging, convert the pointer delta
to a source-image offset using scale factors `lastCropData.width / imageSize`
and `lastCropData.height / imageSize` where `imageSize = 512 - 8*2 = 496` is
computed from locally hardcoded `tokenSize = 512` and `borderWidth = 8`
(the handler does not consult the border-thickness option), subtract the
scaled delta from the drag-origin offset, and regenerate the token. -/
def onMouseMove (image : ImageDim) (faceData : FaceData) (pos : Point) (s : AppState) :
    AppState :=
  if s.isDragging then
    let deltaX := pos.x - s.dragStart.x
    let deltaY := pos.y - s.dragStart.y
    let tokenSize : ℚ := 512
    let borderWidth : ℚ := 8
    let imageSize := tokenSize - borderWidth * 2
    let scaleFactorX := s.lastCropData.width / imageSize
    let scaleFactorY := s.lastCropData.height / imageSize
    regenerateToken image faceData
      { s with currentCropOffset :=
          ⟨s.dragStartOffset.x - deltaX * scaleFactorX,
           s.dragStartOffset.y - deltaY * scaleFactorY⟩ }
  else s

/-- `mouseup` handler (app.js): stop dragging; no other state change. -/
def onMouseUp (s : AppState) : AppState :=
  if s.isDragging then { s with isDragging := false } else s

/-- One complete drag gesture: press at `startPos`, move by `delta`,
release. -/
def dragGesture (image : ImageDim) (faceData : FaceData) (startPos delta : Point)
    (s : AppState) : AppState :=
  onMouseUp (onMouseMove image faceData ⟨startPos.x + delta.x, startPos.y + delta.y⟩
    (onMouseDown startPos s))

/-- `handleZoomChange` (app.js): a slider event carrying value `v` (the DOM
slider is a 50–150 range input) sets `currentZoomAdjustment = v / 100`
without further clamping, then regenerates the token. -/
def handleZoomChange (image : ImageDim) (faceData : FaceData) (sliderValue : ℚ)
    (s : AppState) : AppState :=
  regenerateToken image faceData
    { s with zoomSliderValue := sliderValue, currentZoomAdjustment := sliderValue / 100 }

/-- `wheel` handler (app.js): one discrete scroll step adjusts the slider
value by `-5` when `deltaY > 0`, else `+5`, clamped into `[50, 150]` via
`Math.max(50, Math.min(150, ...))`; the zoom factor becomes the new slider
value divided by 100, and the token is regenerated. -/
def onWheel (image : ImageDim) (faceData : FaceData) (deltaY : ℚ) (s : AppState) : AppState :=
  let zoomDelta : ℚ := if deltaY > 0 then -5 else 5
  let currentSliderValue := s.zoomSliderValue
  let newSliderValue := max 50 (min 150 (currentSliderValue + zoomDelta))
  regenerateToken image faceData
    { s with zoomSliderValue := newSliderValue,
             currentZoomAdjustment := newSliderValue / 100 }

/-! ## Claim C6: drag symmetry -/

/-- The crop's width and height do not depend on the pan offset: the final
`min` step of `calculateCropArea` is a no-op, so both equal the branch
side divided by the zoom. -/
theorem crop_size_pan_independent (image : ImageDim) (f : FaceData) (ts z : ℚ)
    (pan pan' : Point) :
    (calculateCropArea image f ts z pan).width = (calculateCropArea image f ts z pan').width ∧
    (calculateCropArea image f ts z pan).height = (calculateCropArea image f ts z pan').height := by
  rw [calculateCropArea_width, calculateCropArea_width, calculateCropArea_height,
    calculateCropArea_height]
  exact ⟨rfl, rfl⟩

/-- A drag gesture updates the pan offset by the (negated) pointer delta
scaled by `lastCropData.{width,height} / (512 - 8*2)`; this is the literal
arithmetic of the `mousemove` handler. -/
theorem dragGesture_currentCropOffset (image : ImageDim) (faceData : FaceData)
    (startPos delta : Point) (s : AppState) :
    (dragGesture image faceData startPos delta s).currentCropOffset =
      ⟨s.currentCropOffset.x -
        (startPos.x + delta.x - startPos.x) * (s.lastCropData.width / (512 - 8 * 2)),
       s.currentCropOffset.y -
        (startPos.y + delta.y - startPos.y) * (s.lastCropData.height / (512 - 8 * 2))⟩ := rfl

/-- A drag gesture leaves the zoom factor unchanged. -/
theorem dragGesture_zoom (image : ImageDim) (faceData : FaceData)
    (startPos delta : Point) (s : AppState) :
    (dragGesture image faceData startPos delta s).currentZoomAdjustment =
      s.currentZoomAdjustment := rfl

/-- After a drag gesture, `lastCropData` is the crop computed at the new pan
offset (the `regenerateToken` call inside the `mousemove` handler). -/
theorem dragGesture_lastCropData (image : ImageDim) (faceData : FaceData)
    (startPos delta : Point) (s : AppState) :
    (dragGesture image faceData startPos delta s).lastCropData =
      calculateCropArea image faceData (512 - 8 * 2) s.currentZoomAdjustment
        ((dragGesture image faceData startPos delta s).currentCropOffset) := rfl

/-- C6: a drag of `(Δx, Δy)` followed immediately by a drag of
`(-Δx, -Δy)` restores the original `panOffset` exactly.  The hypothesis says
the stored `lastCropData` is consistent — it was produced by the crop
computation at the current zoom for some earlier pan offset `p₀` (which
pan offset does not matter, by `crop_size_pan_independent`); the starting
pointer positions of the two gestures are arbitrary.  No boundary-clamping
side condition is needed: the pan offset itself is never clamped, and the
crop dimensions entering the scale factors are pan-independent even when
the crop corner is clamped. -/
theorem drag_symmetry (image : ImageDim) (faceData : FaceData) (s : AppState)
    (p₀ start₁ start₂ delta : Point)
    (hcrop : s.lastCropData =
      calculateCropArea image faceData (512 - 8 * 2) s.currentZoomAdjustment p₀) :
    (dragGesture image faceData start₂ ⟨-delta.x, -delta.y⟩
        (dragGesture image faceData start₁ delta s)).currentCropOffset =
      s.currentCropOffset := by
  obtain ⟨hw, hh⟩ := crop_size_pan_independent image faceData (512 - 8 * 2)
    s.currentZoomAdjustment p₀ ((dragGesture image faceData start₁ delta s).currentCropOffset)
  rw [dragGesture_currentCropOffset, dragGesture_lastCropData, ← hw, ← hh,
    ← hcrop, dragGesture_currentCropOffset]
  rcases hoc : s.currentCropOffset with ⟨ox, oy⟩
  dsimp only
  rw [Point.mk.injEq]
  constructor <;> ring

/-- Witness for C6 at a concrete state: 1000×1000 image, fallback face box,
zoom 1, pan (0,0), drag by (3, 4) and back by (-3, -4). -/
theorem drag_symmetry_witness :
    (dragGesture ⟨1000, 1000⟩ ⟨400, 300, 200, 250, none, none⟩ ⟨10, 10⟩ ⟨-3, -4⟩
        (dragGesture ⟨1000, 1000⟩ ⟨400, 300, 200, 250, none, none⟩ ⟨250, 260⟩ ⟨3, 4⟩
          ⟨1, ⟨0, 0⟩, false, ⟨0, 0⟩, ⟨0, 0⟩,
           calculateCropArea ⟨1000, 1000⟩ ⟨400, 300, 200, 250, none, none⟩ (512 - 8 * 2) 1 ⟨0, 0⟩,
           100, 8⟩)).currentCropOffset =
      (⟨0, 0⟩ : Point) :=
  drag_symmetry ⟨1000, 1000⟩ ⟨400, 300, 200, 250, none, none⟩ _ ⟨0, 0⟩ ⟨250, 260⟩ ⟨10, 10⟩
    ⟨3, 4⟩ rfl

/-! ## Claim C7: zoom updates stay in [0.5, 1.5] -/

/-- C7: a slider event with the slider's value `v` (the DOM range input is
50–150) sets `zoomFactor = v/100 = clamp(v/100, 0.5, 1.5)`, and a wheel
event changes the slider value by exactly ±5 saturating at 50 and 150; in
both cases the stored zoom factor lies in `[0.5, 1.5]`. -/
theorem zoom_factor_clamped (image : ImageDim) (faceData : FaceData) (v deltaY : ℚ)
    (s : AppState) (hv₁ : 50 ≤ v) (hv₂ : v ≤ 150)
    (hs₁ : 50 ≤ s.zoomSliderValue) (hs₂ : s.zoomSliderValue ≤ 150) :
    ((handleZoomChange image faceData v s).currentZoomAdjustment =
        max (1/2) (min (3/2) (v / 100)) ∧
      1/2 ≤ (handleZoomChange image faceData v s).currentZoomAdjustment ∧
      (handleZoomChange image faceData v s).currentZoomAdjustment ≤ 3/2) ∧
    ((onWheel image faceData deltaY s).zoomSliderValue =
        (if deltaY > 0 then max 50 (s.zoomSliderValue - 5)
         else min 150 (s.zoomSliderValue + 5)) ∧
      (onWheel image faceData deltaY s).currentZoomAdjustment =
        max (1/2) (min (3/2) ((onWheel image faceData deltaY s).zoomSliderValue / 100)) ∧
      1/2 ≤ (onWheel image faceData deltaY s).currentZoomAdjustment ∧
      (onWheel image faceData deltaY s).currentZoomAdjustment ≤ 3/2) := by
  have hz : (handleZoomChange image faceData v s).currentZoomAdjustment = v / 100 := rfl
  have hws : (onWheel image faceData deltaY s).zoomSliderValue =
      max 50 (min 150 (s.zoomSliderValue + if deltaY > 0 then -5 else 5)) := rfl
  have hwz : (onWheel image faceData deltaY s).currentZoomAdjustment =
      max 50 (min 150 (s.zoomSliderValue + if deltaY > 0 then -5 else 5)) / 100 := rfl
  have hnv₁ : (50:ℚ) ≤ max 50 (min 150 (s.zoomSliderValue + if deltaY > 0 then -5 else 5)) :=
    le_max_left _ _
  have hnv₂ : max 50 (min 150 (s.zoomSliderValue + if deltaY > 0 then -5 else 5)) ≤ (150:ℚ) :=
    max_le (by norm_num) (min_le_left _ _)
  refine ⟨⟨?_, ?_, ?_⟩, ?_, ?_, ?_, ?_⟩
  · rw [hz, min_eq_right (by linarith), max_eq_right (by linarith)]
  · rw [hz]; linarith
  · rw [hz]; linarith
  · rw [hws]; split_ifs with h
    · rw [min_eq_right (by linarith)]
      congr 1; ring
    · rw [max_eq_right (le_min (by norm_num) (by linarith))]
  · rw [hwz, hws]
    have h1 : (max 50 (min 150 (s.zoomSliderValue + if deltaY > 0 then -5 else 5))) / 100 ≤
        (3:ℚ)/2 := by linarith
    have h2 : (1:ℚ)/2 ≤
        (max 50 (min 150 (s.zoomSliderValue + if deltaY > 0 then -5 else 5))) / 100 := by
      linarith
    rw [min_eq_right h1, max_eq_right h2]
  · rw [hwz]; linarith
  · rw [hwz]; linarith

/-- Witness for C7: slider event with value 120 and a wheel scroll up from
slider value 100. -/
theorem zoom_factor_clamped_witness :
    ((50:ℚ) ≤ 120 ∧ (120:ℚ) ≤ 150) ∧
    (((handleZoomChange ⟨1000, 1000⟩ ⟨400, 300, 200, 250, none, none⟩ 120
          ⟨1, ⟨0, 0⟩, false, ⟨0, 0⟩, ⟨0, 0⟩, ⟨0, 0, 0, 0⟩, 100, 8⟩).currentZoomAdjustment =
        max (1/2) (min (3/2) ((120:ℚ) / 100)) ∧
      1/2 ≤ (handleZoomChange ⟨1000, 1000⟩ ⟨400, 300, 200, 250, none, none⟩ 120
          ⟨1, ⟨0, 0⟩, false, ⟨0, 0⟩, ⟨0, 0⟩, ⟨0, 0, 0, 0⟩, 100, 8⟩).currentZoomAdjustment ∧
      (handleZoomChange ⟨1000, 1000⟩ ⟨400, 300, 200, 250, none, none⟩ 120
          ⟨1, ⟨0, 0⟩, false, ⟨0, 0⟩, ⟨0, 0⟩, ⟨0, 0, 0, 0⟩, 100, 8⟩).currentZoomAdjustment ≤ 3/2) ∧
    ((onWheel ⟨1000, 1000⟩ ⟨400, 300, 200, 250, none, none⟩ (-2)
          ⟨1, ⟨0, 0⟩, false, ⟨0, 0⟩, ⟨0, 0⟩, ⟨0, 0, 0, 0⟩, 100, 8⟩).zoomSliderValue =
        (if (-2:ℚ) > 0 then
          max 50 ((⟨1, ⟨0, 0⟩, false, ⟨0, 0⟩, ⟨0, 0⟩, ⟨0, 0, 0, 0⟩, 100, 8⟩ :
            AppState).zoomSliderValue - 5)
         else
          min 150 ((⟨1, ⟨0, 0⟩, false, ⟨0, 0⟩, ⟨0, 0⟩, ⟨0, 0, 0, 0⟩, 100, 8⟩ :
            AppState).zoomSliderValue + 5)) ∧
      (onWheel ⟨1000, 1000⟩ ⟨400, 300, 200, 250, none, none⟩ (-2)
          ⟨1, ⟨0, 0⟩, false, ⟨0, 0⟩, ⟨0, 0⟩, ⟨0, 0, 0, 0⟩, 100, 8⟩).currentZoomAdjustment =
        max (1/2) (min (3/2)
          ((onWheel ⟨1000, 1000⟩ ⟨400, 300, 200, 250, none, none⟩ (-2)
            ⟨1, ⟨0, 0⟩, false, ⟨0, 0⟩, ⟨0, 0⟩, ⟨0, 0, 0, 0⟩, 100, 8⟩).zoomSliderValue / 100)) ∧
      1/2 ≤ (onWheel ⟨1000, 1000⟩ ⟨400, 300, 200, 250, none, none⟩ (-2)
          ⟨1, ⟨0, 0⟩, false, ⟨0, 0⟩, ⟨0, 0⟩, ⟨0, 0, 0, 0⟩, 100, 8⟩).currentZoomAdjustment ∧
      (onWheel ⟨1000, 1000⟩ ⟨400, 300, 200, 250, none, none⟩ (-2)
          ⟨1, ⟨0, 0⟩, false, ⟨0, 0⟩, ⟨0, 0⟩, ⟨0, 0, 0, 0⟩, 100, 8⟩).currentZoomAdjustment ≤ 3/2)) :=
  ⟨⟨by norm_num, by norm_num⟩,
    zoom_factor_clamped ⟨1000, 1000⟩ ⟨400, 300, 200, 250, none, none⟩ 120 (-2)
      ⟨1, ⟨0, 0⟩, false, ⟨0, 0⟩, ⟨0, 0⟩, ⟨0, 0, 0, 0⟩, 100, 8⟩
      (by norm_num) (by norm_num) (by norm_num) (by norm_num)⟩

/-! ## Claim C10: drag scaling hardcodes the thin border width -/

/-- C10: the `mousemove` handler converts the pointer delta with scale
factors `lastCropData.width / (512 - 8*2)` and
`lastCropData.height / (512 - 8*2)` — the border width `8` is a local
constant of the handler — so the resulting pan offset is the same whether
the border-thickness option is 8 or 16 (or anything else), and the divisor
equals `496`. -/
theorem drag_scale_uses_hardcoded_496 (image : ImageDim) (faceData : FaceData)
    (pos : Point) (s : AppState) (b₁ b₂ : ℚ) (h : s.isDragging = true) :
    (onMouseMove image faceData pos { s with borderWidthOption := b₁ }).currentCropOffset =
      ⟨s.dragStartOffset.x - (pos.x - s.dragStart.x) * (s.lastCropData.width / (512 - 8 * 2)),
       s.dragStartOffset.y - (pos.y - s.dragStart.y) * (s.lastCropData.height / (512 - 8 * 2))⟩ ∧
    (onMouseMove image faceData pos { s with borderWidthOption := b₁ }).currentCropOffset =
      (onMouseMove image faceData pos { s with borderWidthOption := b₂ }).currentCropOffset ∧
    (512 - 8 * 2 : ℚ) = 496 := by
  have key : ∀ b : ℚ,
      (onMouseMove image faceData pos { s with borderWidthOption := b }).currentCropOffset =
        ⟨s.dragStartOffset.x - (pos.x - s.dragStart.x) * (s.lastCropData.width / (512 - 8 * 2)),
         s.dragStartOffset.y -
          (pos.y - s.dragStart.y) * (s.lastCropData.height / (512 - 8 * 2))⟩ := by
    intro b
    unfold onMouseMove
    rw [show ({ s with borderWidthOption := b } : AppState).isDragging = s.isDragging from rfl, h]
    rfl
  exact ⟨key b₁, by rw [key b₁, key b₂], by norm_num⟩

/-- Witness for C10 at a concrete dragging state with thickness options 8
and 16. -/
theorem drag_scale_uses_hardcoded_496_witness :
    (onMouseMove ⟨1000, 1000⟩ ⟨400, 300, 200, 250, none, none⟩ ⟨20, 30⟩
        { (⟨1, ⟨0, 0⟩, true, ⟨5, 5⟩, ⟨0, 0⟩, ⟨0, 0, 992, 992⟩, 100, 8⟩ : AppState) with
            borderWidthOption := (8:ℚ) }).currentCropOffset =
      ⟨(0:ℚ) - ((20:ℚ) - 5) * ((992:ℚ) / (512 - 8 * 2)),
       (0:ℚ) - ((30:ℚ) - 5) * ((992:ℚ) / (512 - 8 * 2))⟩ ∧
    (onMouseMove ⟨1000, 1000⟩ ⟨400, 300, 200, 250, none, none⟩ ⟨20, 30⟩
        { (⟨1, ⟨0, 0⟩, true, ⟨5, 5⟩, ⟨0, 0⟩, ⟨0, 0, 992, 992⟩, 100, 8⟩ : AppState) with
            borderWidthOption := (8:ℚ) }).currentCropOffset =
      (onMouseMove ⟨1000, 1000⟩ ⟨400, 300, 200, 250, none, none⟩ ⟨20, 30⟩
        { (⟨1, ⟨0, 0⟩, true, ⟨5, 5⟩, ⟨0, 0⟩, ⟨0, 0, 992, 992⟩, 100, 8⟩ : AppState) with
            borderWidthOption := (16:ℚ) }).currentCropOffset ∧
    (512 - 8 * 2 : ℚ) = 496 :=
  drag_scale_uses_hardcoded_496 ⟨1000, 1000⟩ ⟨400, 300, 200, 250, none, none⟩ ⟨20, 30⟩
    ⟨1, ⟨0, 0⟩, true, ⟨5, 5⟩, ⟨0, 0⟩, ⟨0, 0, 992, 992⟩, 100, 8⟩ 8 16 rfl

/-! ## Border renderer (borderStyles.js)

Each of the eight texture functions paints into a `size × size` canvas whose
every drawing primitive is centred on `(size/2, size/2)`; the pixel value at
a point depends only on that point, so a surface is a function from points
to premultiplied-alpha pixels and each canvas call is a pointwise
transformer.  `dist` abstracts the Euclidean distance from the canvas
centre (`Math.sqrt(dx*dx + dy*dy)` in the noise loops, and the disc
membership of `ctx.arc` fills); `Lsin`/`Lcos` abstract `Math.sin`/
`Math.cos`. -/

/-- An RGB colour object `{r, g, b}`. -/
structure RGB where
  r : ℚ
  g : ℚ
  b : ℚ
  deriving DecidableEq, Repr

/-- The extracted colour scheme (all four fields present, as produced by
`extractColorScheme`). -/
structure ColorScheme where
  primary : RGB
  secondary : RGB
  accent : RGB
  border : RGB
  deriving DecidableEq, Repr

/-- A premultiplied-alpha pixel: colour channels scaled 0–255 and
premultiplied by `a ∈ [0, 1]` (canvas byte alpha 255 corresponds to
`a = 1`). -/
structure RGBA where
  r : ℚ
  g : ℚ
  b : ℚ
  a : ℚ
  deriving DecidableEq, Repr

/-- An idealised drawing surface: pixel coordinates to pixel value. -/
def Surface : Type := ℚ × ℚ → RGBA

/-- A freshly created canvas is transparent black. -/
def blankSurface : Surface := fun _ => ⟨0, 0, 0, 0⟩

/-- `Math.round`: round half toward positive infinity. -/
def roundQ (x : ℚ) : ℚ := (⌊x + 1/2⌋ : ℤ)

/-- `colorToCSS` (colorUtils.js) used as an opaque fill style: channels are
rounded by `Math.round` and the alpha is 1. -/
def cssRGB (c : RGB) : RGBA := ⟨roundQ c.r, roundQ c.g, roundQ c.b, 1⟩

/-- A CSS `rgba(r, g, b, a)` colour, stored premultiplied. -/
def rgbaCSS (r g b a : ℚ) : RGBA := ⟨r * a, g * a, b * a, a⟩

/-- The CSS keyword `'transparent'`, i.e. `rgba(0, 0, 0, 0)`. -/
def transparentRGBA : RGBA := ⟨0, 0, 0, 0⟩

/-- Porter–Duff `source-over` on premultiplied pixels (the default
`globalCompositeOperation`). -/
def srcOver (src dst : RGBA) : RGBA :=
  ⟨src.r + dst.r * (1 - src.a), src.g + dst.g * (1 - src.a),
   src.b + dst.b * (1 - src.a), src.a + dst.a * (1 - src.a)⟩

/-- Porter–Duff `destination-out` on premultiplied pixels: the destination
is kept scaled by one minus the source alpha. -/
def destOut (src dst : RGBA) : RGBA :=
  ⟨dst.r * (1 - src.a), dst.g * (1 - src.a), dst.b * (1 - src.a),
   dst.a * (1 - src.a)⟩

/-- `ctx.arc(size/2, size/2, radius, 0, 2π); ctx.fill()` with compositing
operator `op` and (possibly spatially varying) fill style `paint`: pixels
inside the closed disc are composited, pixels outside are untouched (both
`source-over` and `destination-out` leave the destination unchanged where
the source shape is absent). -/
def fillCircle (dist : ℚ × ℚ → ℚ) (radius : ℚ) (paint : ℚ × ℚ → RGBA)
    (op : RGBA → RGBA → RGBA) (s : Surface) : Surface :=
  fun p => if dist p ≤ radius then op (paint p) (s p) else s p

/-- Linear interpolation between two (premultiplied) colours. -/
def lerpRGBA (c₀ c₁ : RGBA) (t : ℚ) : RGBA :=
  ⟨c₀.r + (c₁.r - c₀.r) * t, c₀.g + (c₁.g - c₀.g) * t,
   c₀.b + (c₁.b - c₀.b) * t, c₀.a + (c₁.a - c₀.a) * t⟩

/-- Colour of a canvas gradient at position `t`, given its colour stops as
(offset, colour) pairs in increasing offset order: clamped to the first and
last stops outside their range, piecewise-linear in between. -/
def gradColorAt : List (ℚ × RGBA) → ℚ → RGBA
  | [], _ => transparentRGBA
  | [(_, c)], _ => c
  | (t₀, c₀) :: (t₁, c₁) :: rest, t =>
    if t ≤ t₀ then c₀
    else if t ≤ t₁ then lerpRGBA c₀ c₁ ((t - t₀) / (t₁ - t₀))
    else gradColorAt ((t₁, c₁) :: rest) t

/-- `ctx.createRadialGradient(c, c, r₀, c, c, r₁)` with both circles centred
on the canvas centre: the colour at a pixel depends on its distance from the
centre, mapped affinely from `[r₀, r₁]` to `[0, 1]`. -/
def radialGradient (dist : ℚ × ℚ → ℚ) (r₀ r₁ : ℚ) (stops : List (ℚ × RGBA)) :
    ℚ × ℚ → RGBA :=
  fun p => gradColorAt stops ((dist p - r₀) / (r₁ - r₀))

/-- `ctx.createLinearGradient(x₀, y₀, x₁, y₁)`: the colour at a pixel is
determined by its orthogonal projection onto the gradient axis. -/
def linearGradient (x₀ y₀ x₁ y₁ : ℚ) (stops : List (ℚ × RGBA)) : ℚ × ℚ → RGBA :=
  fun p => gradColorAt stops
    (((p.1 - x₀) * (x₁ - x₀) + (p.2 - y₀) * (y₁ - y₀)) /
      ((x₁ - x₀) ^ 2 + (y₁ - y₀) ^ 2))

/-- `Math.max(0, Math.min(255, v))` channel clamping of the noise loops. -/
def clampChannel (v : ℚ) : ℚ := max 0 (min 255 v)

/-- The `getImageData` / per-pixel loop / `putImageData` pattern shared by
the leather, wood and stone textures: a pixel whose distance from the
centre satisfies `dist ≤ radius && dist > radius - borderWidth` gets its
colour channels replaced by `pix x y` (the base colour plus noise, clamped),
keeping its alpha; all other pixels are written back unchanged. -/
def noiseBand (dist : ℚ × ℚ → ℚ) (radius borderWidth : ℚ) (pix : ℚ → ℚ → RGB)
    (s : Surface) : Surface :=
  fun p =>
    if dist p ≤ radius ∧ radius - borderWidth < dist p then
      ⟨(pix p.1 p.2).r, (pix p.1 p.2).g, (pix p.1 p.2).b, (s p).a⟩
    else s p

/-- `drawSolidBorder`: fill the disc with `colors.primary`, then punch the
inner disc with a `'transparent'` fill under `destination-out`. -/
def drawSolidBorder (dist : ℚ × ℚ → ℚ) (size borderWidth : ℚ)
    (colors : ColorScheme) : Surface :=
  let radius := size / 2
  let s₁ := fillCircle dist radius (fun _ => cssRGB colors.primary) srcOver blankSurface
  fillCircle dist (radius - borderWidth) (fun _ => transparentRGBA) destOut s₁

/-- `drawGradientBorder` (default): background disc of `colors.border`
(`colors.border || colors.primary`; all fields are present so the fallback
never fires), a radial gradient `primary → secondary → accent` over
`[radius - borderWidth, radius]` filled across the disc, then the punch. -/
def drawGradientBorder (dist : ℚ × ℚ → ℚ) (size borderWidth : ℚ)
    (colors : ColorScheme) : Surface :=
  let radius := size / 2
  let s₁ := fillCircle dist radius (fun _ => cssRGB colors.border) srcOver blankSurface
  let gradient := radialGradient dist (radius - borderWidth) radius
    [(0, cssRGB colors.primary), (1/2, cssRGB colors.secondary), (1, cssRGB colors.accent)]
  let s₂ := fillCircle dist radius gradient srcOver s₁
  fillCircle dist (radius - borderWidth) (fun _ => transparentRGBA) destOut s₂

/-- `drawMetallicBorder`: base fill of `colors.primary`, a diagonal linear
gradient of semi-transparent white/black simulating shine, then the punch. -/
def drawMetallicBorder (dist : ℚ × ℚ → ℚ) (size borderWidth : ℚ)
    (colors : ColorScheme) : Surface :=
  let radius := size / 2
  let s₁ := fillCircle dist radius (fun _ => cssRGB colors.primary) srcOver blankSurface
  let gradient := linearGradient (size / 2 - radius * (7/10)) (size / 2 - radius * (7/10))
    (size / 2 + radius * (7/10)) (size / 2 + radius * (7/10))
    [(0, rgbaCSS 255 255 255 (3/5)), (1/2, rgbaCSS 255 255 255 (1/10)),
     (1, rgbaCSS 0 0 0 (3/10))]
  let s₂ := fillCircle dist radius gradient srcOver s₁
  fillCircle dist (radius - borderWidth) (fun _ => transparentRGBA) destOut s₂

/-- `drawLeatherBorder`: base fill of `colors.primary`, the per-pixel loop
adding `sin(x*0.1) * cos(y*0.1) * 15` to all three channels inside the ring
band, then the punch. -/
def drawLeatherBorder (Lsin Lcos : ℚ → ℚ) (dist : ℚ × ℚ → ℚ) (size borderWidth : ℚ)
    (colors : ColorScheme) : Surface :=
  let radius := size / 2
  let s₁ := fillCircle dist radius (fun _ => cssRGB colors.primary) srcOver blankSurface
  let s₂ := noiseBand dist radius borderWidth (fun x y =>
    let noise := Lsin (x * (1/10)) * Lcos (y * (1/10)) * 15
    ⟨clampChannel (colors.primary.r + noise), clampChannel (colors.primary.g + noise),
     clampChannel (colors.primary.b + noise)⟩) s₁
  fillCircle dist (radius - borderWidth) (fun _ => transparentRGBA) destOut s₂

/-- `drawWoodBorder`: base fill of `colors.primary`, the per-pixel grain
loop `sin(y*0.05 + sin(x*0.02)*2) * 20` with green/blue damped by 0.8/0.6,
then the punch. -/
def drawWoodBorder (Lsin Lcos : ℚ → ℚ) (dist : ℚ × ℚ → ℚ) (size borderWidth : ℚ)
    (colors : ColorScheme) : Surface :=
  let radius := size / 2
  let s₁ := fillCircle dist radius (fun _ => cssRGB colors.primary) srcOver blankSurface
  let s₂ := noiseBand dist radius borderWidth (fun x y =>
    let grain := Lsin (y * (1/20) + Lsin (x * (1/50)) * 2) * 20
    ⟨clampChannel (colors.primary.r + grain),
     clampChannel (colors.primary.g + grain * (4/5)),
     clampChannel (colors.primary.b + grain * (3/5))⟩) s₁
  fillCircle dist (radius - borderWidth) (fun _ => transparentRGBA) destOut s₂

/-- `drawStoneBorder`: base fill of `colors.primary`, the per-pixel mottling
loop `(sin(x*0.15)*cos(y*0.15) + sin(x*0.3)*cos(y*0.3)) * 25` added to all
three channels, then the punch. -/
def drawStoneBorder (Lsin Lcos : ℚ → ℚ) (dist : ℚ × ℚ → ℚ) (size borderWidth : ℚ)
    (colors : ColorScheme) : Surface :=
  let radius := size / 2
  let s₁ := fillCircle dist radius (fun _ => cssRGB colors.primary) srcOver blankSurface
  let s₂ := noiseBand dist radius borderWidth (fun x y =>
    let noise := (Lsin (x * (3/20)) * Lcos (y * (3/20)) +
      Lsin (x * (3/10)) * Lcos (y * (3/10))) * 25
    ⟨clampChannel (colors.primary.r + noise), clampChannel (colors.primary.g + noise),
     clampChannel (colors.primary.b + noise)⟩) s₁
  fillCircle dist (radius - borderWidth) (fun _ => transparentRGBA) destOut s₂

/-- `drawCrystalBorder`: base fill of `colors.primary`, a radial gradient
with four stops mixing primary, white highlights and accent
(`colors.accent || colors.primary`; accent is present), then the punch. -/
def drawCrystalBorder (dist : ℚ × ℚ → ℚ) (size borderWidth : ℚ)
    (colors : ColorScheme) : Surface :=
  let radius := size / 2
  let s₁ := fillCircle dist radius (fun _ => cssRGB colors.primary) srcOver blankSurface
  let gradient := radialGradient dist (radius - borderWidth) radius
    [(0, cssRGB colors.primary), (3/10, rgbaCSS 255 255 255 (2/5)),
     (3/5, cssRGB colors.accent), (1, rgbaCSS 255 255 255 (3/5))]
  let s₂ := fillCircle dist radius gradient srcOver s₁
  fillCircle dist (radius - borderWidth) (fun _ => transparentRGBA) destOut s₂

/-- `drawGlowBorder`: an outer radial falloff of the primary colour past the
nominal radius, the opaque primary disc, an inner white-to-accent highlight
(per-channel JavaScript truthiness: a zero accent channel falls back to the
primary channel), then the punch. -/
def drawGlowBorder (dist : ℚ × ℚ → ℚ) (size borderWidth : ℚ)
    (colors : ColorScheme) : Surface :=
  let radius := size / 2
  let outerGradient := radialGradient dist (radius - borderWidth * (1/2))
    (radius + borderWidth * (1/2))
    [(0, rgbaCSS colors.primary.r colors.primary.g colors.primary.b (4/5)),
     (1, rgbaCSS colors.primary.r colors.primary.g colors.primary.b 0)]
  let s₁ := fillCircle dist (radius + borderWidth * (1/2)) outerGradient srcOver blankSurface
  let s₂ := fillCircle dist radius (fun _ => cssRGB colors.primary) srcOver s₁
  let innerGradient := radialGradient dist (radius - borderWidth)
    (radius - borderWidth * (3/10))
    [(0, rgbaCSS 255 255 255 (1/2)),
     (1, rgbaCSS (if colors.accent.r = 0 then colors.primary.r else colors.accent.r)
       (if colors.accent.g = 0 then colors.primary.g else colors.accent.g)
       (if colors.accent.b = 0 then colors.primary.b else colors.accent.b) (3/10))]
  let s₃ := fillCircle dist (radius - borderWidth * (3/10)) innerGradient srcOver s₂
  fillCircle dist (radius - borderWidth) (fun _ => transparentRGBA) destOut s₃

/-- The eight border texture identifiers (`BORDER_TEXTURES`). -/
inductive BorderTexture
  | solid | gradient | metallic | leather | wood | stone | crystal | glow
  deriving DecidableEq, Repr

/-- The `TEXTURE_DEFINITIONS` dispatch table: texture id to drawing
function.  The trigonometric oracles are only consumed by the three noise
textures. -/
def textureDraw (t : BorderTexture) (Lsin Lcos : ℚ → ℚ) (dist : ℚ × ℚ → ℚ)
    (size borderWidth : ℚ) (colors : ColorScheme) : Surface :=
  match t with
  | .solid => drawSolidBorder dist size borderWidth colors
  | .gradient => drawGradientBorder dist size borderWidth colors
  | .metallic => drawMetallicBorder dist size borderWidth colors
  | .leather => drawLeatherBorder Lsin Lcos dist size borderWidth colors
  | .wood => drawWoodBorder Lsin Lcos dist size borderWidth colors
  | .stone => drawStoneBorder Lsin Lcos dist size borderWidth colors
  | .crystal => drawCrystalBorder dist size borderWidth colors
  | .glow => drawGlowBorder dist size borderWidth colors

/-- The punch step with a `'transparent'` fill style is a Porter–Duff
no-op: `destination-out` scales the destination by `1 - srcAlpha = 1`. -/
theorem destOut_transparent (d : RGBA) : destOut transparentRGBA d = d := by
  cases d
  simp [destOut, transparentRGBA]

/-- Source-over of any pixel onto transparent black yields that pixel. -/
theorem srcOver_onto_blank (s : RGBA) : srcOver s ⟨0, 0, 0, 0⟩ = s := by
  cases s
  simp [srcOver]

/-! ## Claim C3: custom-colour substitution -/

/-- Modelled from the spec: the Token Compositor's *effective* colour
scheme (§4.3).  The snapshot's tokenGenerator predates `borderOptions` —
its `createToken` takes five parameters and silently ignores the sixth
argument (`currentBorderOptions`) that `app.js` passes, while the changelog
records that `createToken` was since updated to consume `borderOptions` —
so the substitution step is embedded from the spec's words: when
`customColor` is set, it replaces `primary` and `accent`; `secondary` and
`border` are kept from the auto-extracted scheme. -/
def effectiveColorScheme (auto : ColorScheme) (customColor : Option RGB) : ColorScheme :=
  match customColor with
  | none => auto
  | some c => { auto with primary := c, accent := c }

/-- C3: when `customColor` is set, the effective scheme substitutes it for
`primary` and `accent` (keeping `secondary` and `border`), and the solid
border's outer-edge pixel — any pixel whose centre distance lies in
`(size/2 - borderWidth, size/2]` — is exactly the custom colour at full
alpha.  The integrality hypotheses `roundQ c.* = c.*` record that the
custom colour has whole-number channels (the app's swatches do), so
`colorToCSS`'s `Math.round` reproduces it exactly. -/
theorem custom_color_border (auto : ColorScheme) (c : RGB) (dist : ℚ × ℚ → ℚ)
    (size borderWidth : ℚ) (p : ℚ × ℚ)
    (hr : roundQ c.r = c.r) (hg : roundQ c.g = c.g) (hb : roundQ c.b = c.b)
    (hband₁ : size / 2 - borderWidth < dist p) (hband₂ : dist p ≤ size / 2) :
    (effectiveColorScheme auto (some c)).primary = c ∧
    (effectiveColorScheme auto (some c)).accent = c ∧
    (effectiveColorScheme auto (some c)).secondary = auto.secondary ∧
    (effectiveColorScheme auto (some c)).border = auto.border ∧
    drawSolidBorder dist size borderWidth (effectiveColorScheme auto (some c)) p =
      ⟨c.r, c.g, c.b, 1⟩ := by
  refine ⟨rfl, rfl, rfl, rfl, ?_⟩
  simp only [drawSolidBorder, fillCircle, blankSurface, effectiveColorScheme]
  rw [if_pos hband₂, destOut_transparent, ite_self, srcOver_onto_blank]
  simp only [cssRGB]
  rw [hr, hg, hb]

/-- Witness for C3: the Gold swatch `(255, 215, 0)` on a 512-canvas,
8-pixel solid border, sampled at the band pixel `(505, 256)` whose centre
distance (along the horizontal axis through the centre) is 249. -/
theorem custom_color_border_witness :
    (roundQ (⟨255, 215, 0⟩ : RGB).r = (⟨255, 215, 0⟩ : RGB).r ∧
     (512:ℚ) / 2 - 8 < |(505:ℚ) - 256| ∧ |(505:ℚ) - 256| ≤ (512:ℚ) / 2) ∧
    ((effectiveColorScheme ⟨⟨10, 20, 30⟩, ⟨40, 50, 60⟩, ⟨70, 80, 90⟩, ⟨1, 2, 3⟩⟩
        (some ⟨255, 215, 0⟩)).primary = ⟨255, 215, 0⟩ ∧
     (effectiveColorScheme ⟨⟨10, 20, 30⟩, ⟨40, 50, 60⟩, ⟨70, 80, 90⟩, ⟨1, 2, 3⟩⟩
        (some ⟨255, 215, 0⟩)).accent = ⟨255, 215, 0⟩ ∧
     (effectiveColorScheme ⟨⟨10, 20, 30⟩, ⟨40, 50, 60⟩, ⟨70, 80, 90⟩, ⟨1, 2, 3⟩⟩
        (some ⟨255, 215, 0⟩)).secondary =
       (⟨⟨10, 20, 30⟩, ⟨40, 50, 60⟩, ⟨70, 80, 90⟩, ⟨1, 2, 3⟩⟩ : ColorScheme).secondary ∧
     (effectiveColorScheme ⟨⟨10, 20, 30⟩, ⟨40, 50, 60⟩, ⟨70, 80, 90⟩, ⟨1, 2, 3⟩⟩
        (some ⟨255, 215, 0⟩)).border =
       (⟨⟨10, 20, 30⟩, ⟨40, 50, 60⟩, ⟨70, 80, 90⟩, ⟨1, 2, 3⟩⟩ : ColorScheme).border ∧
     drawSolidBorder (fun q => |q.1 - 256|) 512 8
        (effectiveColorScheme ⟨⟨10, 20, 30⟩, ⟨40, 50, 60⟩, ⟨70, 80, 90⟩, ⟨1, 2, 3⟩⟩
          (some ⟨255, 215, 0⟩)) (505, 256) =
       ⟨(⟨255, 215, 0⟩ : RGB).r, (⟨255, 215, 0⟩ : RGB).g, (⟨255, 215, 0⟩ : RGB).b, 1⟩) :=
  ⟨⟨by norm_num [roundQ], by norm_num, by norm_num⟩,
    custom_color_border ⟨⟨10, 20, 30⟩, ⟨40, 50, 60⟩, ⟨70, 80, 90⟩, ⟨1, 2, 3⟩⟩
      ⟨255, 215, 0⟩ (fun q => |q.1 - 256|) 512 8 (505, 256)
      (by norm_num [roundQ]) (by norm_num [roundQ]) (by norm_num [roundQ])
      (by norm_num) (by norm_num)⟩

/-! ## Claim C5: ring geometry of the rendered border -/

/-- Sample colour scheme for concrete border evaluations. -/
def sampleScheme : ColorScheme :=
  ⟨⟨255, 215, 0⟩, ⟨192, 192, 192⟩, ⟨184, 115, 51⟩, ⟨50, 40, 30⟩⟩

/-- Distance-from-centre oracle for a 512-canvas, exact on the horizontal
line through the centre `(256, 256)`. -/
def distH : ℚ × ℚ → ℚ := fun q => |q.1 - 256|

/-- A concrete trigonometric oracle (any function works; the noise loops
only transform colour channels, never alpha). -/
def zeroTrig : ℚ → ℚ := fun _ => 0

/-- C5 evaluation: on a 512-canvas with an 8-pixel border, the band pixel
`(505, 256)` (distance 249 ∈ (248, 256]) of the solid texture has full
alpha and the primary colour — the band half of the claim — but the
centre pixel `(256, 256)` (distance 0, well inside
`size/2 - borderWidth - ε`) also has full alpha under **all eight**
textures: the final `destination-out` step fills with the `'transparent'`
style, whose zero source alpha makes the punch a no-op, so the inner disc
is never made transparent. -/
theorem border_punch_noop_eval :
    (drawSolidBorder distH 512 8 sampleScheme (505, 256) = ⟨255, 215, 0, 1⟩) ∧
    (drawSolidBorder distH 512 8 sampleScheme (256, 256)).a = 1 ∧
    (drawGradientBorder distH 512 8 sampleScheme (256, 256)).a = 1 ∧
    (drawMetallicBorder distH 512 8 sampleScheme (256, 256)).a = 1 ∧
    (drawLeatherBorder zeroTrig zeroTrig distH 512 8 sampleScheme (256, 256)).a = 1 ∧
    (drawWoodBorder zeroTrig zeroTrig distH 512 8 sampleScheme (256, 256)).a = 1 ∧
    (drawStoneBorder zeroTrig zeroTrig distH 512 8 sampleScheme (256, 256)).a = 1 ∧
    (drawCrystalBorder distH 512 8 sampleScheme (256, 256)).a = 1 ∧
    (drawGlowBorder distH 512 8 sampleScheme (256, 256)).a = 1 := by
  norm_num [sampleScheme, distH, zeroTrig, drawSolidBorder, drawGradientBorder,
    drawMetallicBorder, drawLeatherBorder, drawWoodBorder, drawStoneBorder,
    drawCrystalBorder, drawGlowBorder, fillCircle, blankSurface, srcOver, destOut,
    transparentRGBA, cssRGB, rgbaCSS, roundQ, radialGradient, linearGradient,
    gradColorAt, lerpRGBA, noiseBand, clampChannel]

/-! ## Claim C8: texture functions are deterministic -/

/-- C8: every texture function — including the per-pixel leather, wood and
stone noise loops — is a pure function of the texture id, canvas size,
border width and colour scheme (plus the deterministic `Math.sin`/
`Math.cos`/distance oracles shared by both runs): two invocations with
identical inputs produce pixel-for-pixel identical output.  The embedding
contains no randomness source, mirroring the source, whose noise is
closed-form trigonometric in the pixel coordinates. -/
theorem texture_functions_deterministic (t : BorderTexture) (Lsin Lcos : ℚ → ℚ)
    (dist : ℚ × ℚ → ℚ) (size₁ size₂ borderWidth₁ borderWidth₂ : ℚ)
    (colors₁ colors₂ : ColorScheme) (p : ℚ × ℚ)
    (hsize : size₁ = size₂) (hbw : borderWidth₁ = borderWidth₂)
    (hcolors : colors₁ = colors₂) :
    textureDraw t Lsin Lcos dist size₁ borderWidth₁ colors₁ p =
      textureDraw t Lsin Lcos dist size₂ borderWidth₂ colors₂ p := by
  subst hsize
  subst hbw
  subst hcolors
  rfl

/-- Witness for C8: two leather renders with identical concrete inputs
agree at a band pixel. -/
theorem texture_functions_deterministic_witness :
    ((512:ℚ) = 512 ∧ (8:ℚ) = 8 ∧ sampleScheme = sampleScheme) ∧
    textureDraw .leather zeroTrig zeroTrig distH 512 8 sampleScheme (505, 256) =
      textureDraw .leather zeroTrig zeroTrig distH 512 8 sampleScheme (505, 256) :=
  ⟨⟨rfl, rfl, rfl⟩,
    texture_functions_deterministic .leather zeroTrig zeroTrig distH 512 512 8 8
      sampleScheme sampleScheme (505, 256) rfl rfl rfl⟩

end TokenPrep
